import Mathlib

/-!
Shallow embedding of the two llama-pack constructors of this repository:

* `HybridFusionRetrieverPack`
  (src/llama_hub/llama_packs/fusion_retriever/hybrid_fusion/base.py)
* `RecursiveRetrieverSmallToBigPack`
  (src/llama_hub/llama_packs/recursive_retriever/small_to_big/base.py)

Both packs are thin wiring around external llama-index components
(sentence splitter, vector index, BM25 retriever, fusion retriever,
recursive retriever, query engine, LLM and embedding clients).  The
wiring itself is translated from the Python source; the external
components are modelled abstractly: their data-bearing configuration is
recorded in structures mirroring the constructor arguments the source
passes, and their opaque behaviour (chunking, ranking, query
reformulation, fusion, synthesis) is supplied by oracle parameters, with
the documented truncation/lookup contracts modelled from the spec.
-/

/-- A raw input document handed to a pack: text plus metadata (metadata
plays no role in the wiring, so only the text is carried). -/
structure Document where
  text : String
deriving Repr, DecidableEq

/-- A text chunk (node) produced by the chunking service: a unique
identifier `id_` and the chunk text. -/
structure TextNode where
  id_ : String
  text : String
deriving Repr, DecidableEq

/-- `node_id` property of a text node (returns `id_`). -/
def TextNode.node_id (n : TextNode) : String := n.id_

/-- An `IndexNode`: a text chunk augmented with a reference identifier
`index_id` pointing at another node (the parent, in pack B). -/
structure IndexNode where
  id_ : String
  text : String
  index_id : String
deriving Repr, DecidableEq

/-- `IndexNode.from_text_node(node, index_id)`: wraps a text node as an
index node, keeping the node's own identifier and text and attaching the
reference identifier. -/
def IndexNode.from_text_node (n : TextNode) (index_id : String) : IndexNode :=
  { id_ := n.id_, text := n.text, index_id := index_id }

/-- `node_id` property of an index node (returns `id_`). -/
def IndexNode.node_id (n : IndexNode) : String := n.id_

/-- Modelled from the spec: the external `SentenceSplitter` chunking
service is opaque.  `split chunk_size text` gives the chunk texts the
splitter produces for a text at a given chunk size, and
`mkId chunk_size text i` gives the (framework-generated, effectively
random) identifier assigned to the `i`-th fresh chunk of that text. -/
structure SentenceSplitterModel where
  split : Nat → String → List String
  mkId : Nat → String → Nat → String

/-- The chunks the splitter produces from one text, as `TextNode`s with
their freshly generated identifiers. -/
def SentenceSplitterModel.nodesOfText (m : SentenceSplitterModel)
    (chunk_size : Nat) (t : String) : List TextNode :=
  (m.split chunk_size t).enum.map fun p => { id_ := m.mkId chunk_size t p.1, text := p.2 }

/-- `get_nodes_from_documents`: chunk each document in order and
concatenate the resulting nodes. -/
def SentenceSplitterModel.get_nodes_from_documents (m : SentenceSplitterModel)
    (chunk_size : Nat) (docs : List Document) : List TextNode :=
  docs.flatMap fun d => m.nodesOfText chunk_size d.text

/-- The stored `self.node_parser` of pack B: a sentence splitter
configured with a chunk size. -/
structure SentenceSplitter where
  chunk_size : Nat
deriving Repr, DecidableEq

/-- The LLM client `OpenAI(model=...)`. -/
structure OpenAI where
  model : String
deriving Repr, DecidableEq

/-- An embedding client; `resolve_embed_model` records the model
specification string it was resolved from. -/
structure EmbedModel where
  spec : String
deriving Repr, DecidableEq

/-- `resolve_embed_model(spec)`. -/
def resolve_embed_model (s : String) : EmbedModel := ⟨s⟩

/-- `ServiceContext.from_defaults(...)`: the configuration the packs
actually pass (chunk size for pack A; llm and embed model for pack B).
Unset fields stay `none`. -/
structure ServiceContext where
  chunk_size : Option Nat := none
  llm : Option OpenAI := none
  embed_model : Option EmbedModel := none
deriving Repr, DecidableEq

/-- `VectorStoreIndex(nodes, service_context=...)`: stores the indexed
nodes (its docstore) and the service context. -/
structure VectorStoreIndex (α : Type) where
  nodes : List α
  service_context : ServiceContext
deriving Repr, DecidableEq

/-- `index.docstore`: the chunk store holding the indexed nodes. -/
def VectorStoreIndex.docstore {α : Type} (i : VectorStoreIndex α) : List α :=
  i.nodes

/-- `index.as_retriever(similarity_top_k=k)`: a vector retriever over the
index with a fixed top-k. -/
structure VectorIndexRetriever (α : Type) where
  index : VectorStoreIndex α
  similarity_top_k : Nat
deriving Repr, DecidableEq

def VectorStoreIndex.as_retriever {α : Type} (i : VectorStoreIndex α)
    (similarity_top_k : Nat) : VectorIndexRetriever α :=
  { index := i, similarity_top_k := similarity_top_k }

/-! ### Pack B: RecursiveRetrieverSmallToBigPack -/

/-- The base ("parent") chunks of pack B: split each document at chunk
size 1024, then overwrite each node's identifier with `node-{idx}` in
traversal order (`for idx, node in enumerate(base_nodes): node.id_ =
f"node-{idx}"`). -/
def baseNodes (m : SentenceSplitterModel) (docs : List Document) : List TextNode :=
  (m.get_nodes_from_documents 1024 docs).enum.map
    fun p => { p.2 with id_ := "node-" ++ toString p.1 }

/-- `sub_chunk_sizes = [128, 256, 512]`. -/
def sub_chunk_sizes : List Nat := [128, 256, 512]

/-- The flat node list built by pack B's constructor: for each base node,
the sub-chunks at each of the three granularities wrapped as `IndexNode`s
referencing the base node, followed by the original base node wrapped the
same way (`all_nodes` in the source; the loop's `extend`/`append` order
is kept). -/
def allNodes (m : SentenceSplitterModel) (docs : List Document) : List IndexNode :=
  (baseNodes m docs).flatMap fun base_node =>
    (sub_chunk_sizes.flatMap fun c =>
      (m.nodesOfText c base_node.text).map
        fun sn => IndexNode.from_text_node sn base_node.node_id)
    ++ [IndexNode.from_text_node base_node base_node.node_id]

/-- `all_nodes_dict = {n.node_id: n for n in all_nodes}` as an
association list in insertion order (Python dict semantics: on duplicate
keys the later binding wins, see `pyDictLookup`). -/
def allNodesDict (m : SentenceSplitterModel) (docs : List Document) :
    List (String × IndexNode) :=
  (allNodes m docs).map fun n => (n.node_id, n)

/-- Python dict lookup on an insertion-ordered association list: the
last binding of a key wins. -/
def pyDictLookup {α : Type} (l : List (String × α)) (k : String) : Option α :=
  List.lookup k l.reverse

/-- `RecursiveRetriever("vector", retriever_dict=..., node_dict=...,
verbose=True)`: root retriever id, the retriever mapping, the node
mapping used to resolve references, and the verbosity flag. -/
structure RecursiveRetriever where
  root_id : String
  retriever_dict : List (String × VectorIndexRetriever IndexNode)
  node_dict : List (String × IndexNode)
  verbose : Bool
deriving Repr, DecidableEq

/-- Query engine of pack B:
`RetrieverQueryEngine.from_args(recursive_retriever, service_context)`. -/
structure RetrieverQueryEngineB where
  retriever : RecursiveRetriever
  service_context : ServiceContext
deriving Repr, DecidableEq

/-- The fields `RecursiveRetrieverSmallToBigPack.__init__` stores on
`self`. -/
structure RecursiveRetrieverSmallToBigPack where
  nodeParser : SentenceSplitter
  embed_model : EmbedModel
  llm : OpenAI
  service_context : ServiceContext
  vector_index_chunk : VectorStoreIndex IndexNode
  recursive_retriever : RecursiveRetriever
  query_engine : RetrieverQueryEngineB
deriving Repr, DecidableEq

/-- `RecursiveRetrieverSmallToBigPack.__init__(docs)`, with the external
sentence splitter supplied as a model.  Follows the source line by line:
parent split at 1024, id reassignment, embed model and LLM, service
context, sub-splitting at `[128, 256, 512]`, the flat node list and node
dict, one vector index over all nodes, a vector retriever with
`similarity_top_k=2`, the recursive retriever rooted at "vector", and
the query engine. -/
def RecursiveRetrieverSmallToBigPack.init (m : SentenceSplitterModel)
    (docs : List Document) : RecursiveRetrieverSmallToBigPack :=
  let nodeParser : SentenceSplitter := { chunk_size := 1024 }
  let embed_model := resolve_embed_model "local:BAAI/bge-small-en"
  let llm : OpenAI := { model := "gpt-3.5-turbo" }
  let service_context : ServiceContext := { llm := some llm, embed_model := some embed_model }
  let all_nodes := allNodes m docs
  let all_nodes_dict := allNodesDict m docs
  let vector_index_chunk : VectorStoreIndex IndexNode :=
    { nodes := all_nodes, service_context := service_context }
  let vector_retriever_chunk := vector_index_chunk.as_retriever 2
  let recursive_retriever : RecursiveRetriever :=
    { root_id := "vector"
      retriever_dict := [("vector", vector_retriever_chunk)]
      node_dict := all_nodes_dict
      verbose := true }
  let query_engine : RetrieverQueryEngineB :=
    { retriever := recursive_retriever, service_context := service_context }
  { nodeParser := nodeParser
    embed_model := embed_model
    llm := llm
    service_context := service_context
    vector_index_chunk := vector_index_chunk
    recursive_retriever := recursive_retriever
    query_engine := query_engine }

/-- Module handles pack B's `get_modules` can return. -/
inductive ModuleB where
  | queryEngine (e : RetrieverQueryEngineB)
  | recursiveRetriever (r : RecursiveRetriever)
  | llm (l : OpenAI)
  | embedModel (e : EmbedModel)
  | serviceContext (s : ServiceContext)
deriving Repr, DecidableEq

/-- `RecursiveRetrieverSmallToBigPack.get_modules()`: the dict literal
returned by the source, in source order. -/
def RecursiveRetrieverSmallToBigPack.get_modules
    (p : RecursiveRetrieverSmallToBigPack) : List (String × ModuleB) :=
  [("query_engine", ModuleB.queryEngine p.query_engine),
   ("recursive_retriever", ModuleB.recursiveRetriever p.recursive_retriever),
   ("llm", ModuleB.llm p.llm),
   ("embed_model", ModuleB.embedModel p.embed_model),
   ("service_context", ModuleB.serviceContext p.service_context)]

/-- Modelled from the spec: the external vector similarity search over a
pack-B index is opaque; `rank` gives its full similarity ranking for a
query, and `synthesize` the query engine's answer synthesis over the
resolved chunks. -/
structure OracleB where
  rank : VectorStoreIndex IndexNode → String → List IndexNode
  synthesize : String → List IndexNode → String

/-- Modelled from the spec: a vector retriever returns the top
`similarity_top_k` chunks of the index's similarity ranking. -/
def VectorIndexRetriever.retrieveB (o : OracleB)
    (r : VectorIndexRetriever IndexNode) (q : String) : List IndexNode :=
  (o.rank r.index q).take r.similarity_top_k

/-- Modelled from the spec: the recursive retriever queries the root
retriever and, for each hit, follows the hit's parent reference through
the node mapping, substituting the parent chunk; a reference absent from
the mapping degrades to returning the hit as-is. -/
def RecursiveRetriever.retrieve (o : OracleB) (r : RecursiveRetriever)
    (q : String) : List IndexNode :=
  match pyDictLookup r.retriever_dict r.root_id with
  | none => []
  | some vr =>
    (vr.retrieveB o q).map fun n =>
      match pyDictLookup r.node_dict n.index_id with
      | some parent => parent
      | none => n

/-- Pack B query engine: synthesize an answer over the recursively
resolved chunks. -/
def RetrieverQueryEngineB.query (o : OracleB) (e : RetrieverQueryEngineB)
    (q : String) : String :=
  o.synthesize q (e.retriever.retrieve o q)

/-- `RecursiveRetrieverSmallToBigPack.run(query)`: delegates to the query
engine.  The method assigns no attribute, so it returns the pack
unchanged alongside the result. -/
def RecursiveRetrieverSmallToBigPack.run (o : OracleB)
    (p : RecursiveRetrieverSmallToBigPack) (q : String) :
    RecursiveRetrieverSmallToBigPack × String :=
  (p, p.query_engine.query o q)

/-! ### Pack A: HybridFusionRetrieverPack -/

/-- `BM25Retriever.from_defaults(docstore=..., similarity_top_k=...)`:
a lexical retriever over a chunk store with a fixed top-k. -/
structure BM25Retriever where
  docstore : List TextNode
  similarity_top_k : Nat
deriving Repr, DecidableEq

def BM25Retriever.from_defaults (docstore : List TextNode)
    (similarity_top_k : Nat) : BM25Retriever :=
  { docstore := docstore, similarity_top_k := similarity_top_k }

/-- The two retriever kinds pack A hands to the fusion retriever. -/
inductive BaseRetrieverA where
  | vector (r : VectorIndexRetriever TextNode)
  | bm25 (r : BM25Retriever)
deriving Repr, DecidableEq

/-- `QueryFusionRetriever([...], similarity_top_k=..., num_queries=...,
mode=..., use_async=True, verbose=True)`. -/
structure QueryFusionRetriever where
  retrievers : List BaseRetrieverA
  similarity_top_k : Nat
  num_queries : Nat
  mode : String
  use_async : Bool
  verbose : Bool
deriving Repr, DecidableEq

/-- Query engine of pack A: `RetrieverQueryEngine.from_args(fusion)`. -/
structure RetrieverQueryEngineA where
  retriever : QueryFusionRetriever
deriving Repr, DecidableEq

def RetrieverQueryEngineA.from_args (r : QueryFusionRetriever) :
    RetrieverQueryEngineA :=
  { retriever := r }

/-- The fields `HybridFusionRetrieverPack.__init__` stores on `self`. -/
structure HybridFusionRetrieverPack where
  vector_retriever : VectorIndexRetriever TextNode
  bm25_retriever : BM25Retriever
  fusion_retriever : QueryFusionRetriever
  query_engine : RetrieverQueryEngineA
deriving Repr, DecidableEq

/-- `HybridFusionRetrieverPack.__init__(nodes, chunk_size, mode,
vector_similarity_top_k, bm25_similarity_top_k, fusion_similarity_top_k,
num_queries)`: one service context, one vector index over the nodes, its
vector retriever, a BM25 retriever over the index's docstore, the fusion
retriever over both, and the query engine. -/
def HybridFusionRetrieverPack.init (nodes : List TextNode) (chunk_size : Nat)
    (mode : String) (vector_similarity_top_k bm25_similarity_top_k
    fusion_similarity_top_k num_queries : Nat) : HybridFusionRetrieverPack :=
  let service_context : ServiceContext := { chunk_size := some chunk_size }
  let index : VectorStoreIndex TextNode :=
    { nodes := nodes, service_context := service_context }
  let vector_retriever := index.as_retriever vector_similarity_top_k
  let bm25_retriever := BM25Retriever.from_defaults index.docstore bm25_similarity_top_k
  let fusion_retriever : QueryFusionRetriever :=
    { retrievers := [BaseRetrieverA.vector vector_retriever,
                     BaseRetrieverA.bm25 bm25_retriever]
      similarity_top_k := fusion_similarity_top_k
      num_queries := num_queries
      mode := mode
      use_async := true
      verbose := true }
  let query_engine := RetrieverQueryEngineA.from_args fusion_retriever
  { vector_retriever := vector_retriever
    bm25_retriever := bm25_retriever
    fusion_retriever := fusion_retriever
    query_engine := query_engine }

/-- Module handles pack A's `get_modules` returns. -/
inductive ModuleA where
  | vectorRetriever (r : VectorIndexRetriever TextNode)
  | bm25Retriever (r : BM25Retriever)
  | fusionRetriever (r : QueryFusionRetriever)
  | queryEngine (e : RetrieverQueryEngineA)
deriving Repr, DecidableEq

/-- `HybridFusionRetrieverPack.get_modules()`: the dict literal from the
source, in source order.  The method assigns no attribute, so it returns
the pack unchanged alongside the mapping. -/
def HybridFusionRetrieverPack.get_modules (p : HybridFusionRetrieverPack) :
    HybridFusionRetrieverPack × List (String × ModuleA) :=
  (p,
   [("vector_retriever", ModuleA.vectorRetriever p.vector_retriever),
    ("bm25_retriever", ModuleA.bm25Retriever p.bm25_retriever),
    ("fusion_retriever", ModuleA.fusionRetriever p.fusion_retriever),
    ("query_engine", ModuleA.queryEngine p.query_engine)])

/-- Modelled from the spec: the external ranking, query reformulation,
fusion and synthesis services behind pack A are opaque.  `rankVector`
and `rankBM25` give the full similarity / lexical rankings for a query,
`genQueries q k` the `k` reformulations generated for `q`, `fuse mode
lists` the rank-fusion merge of the per-query per-retriever result
lists under the configured mode, and `synthesize` the query engine's
answer synthesis. -/
structure OracleA where
  rankVector : VectorStoreIndex TextNode → String → List TextNode
  rankBM25 : List TextNode → String → List TextNode
  genQueries : String → Nat → List String
  fuse : String → List (List TextNode) → List TextNode
  synthesize : String → List TextNode → String

/-- Modelled from the spec: a vector retriever returns the top
`similarity_top_k` chunks of the index's similarity ranking. -/
def VectorIndexRetriever.retrieveA (o : OracleA)
    (r : VectorIndexRetriever TextNode) (q : String) : List TextNode :=
  (o.rankVector r.index q).take r.similarity_top_k

/-- Modelled from the spec: the BM25 retriever returns the top
`similarity_top_k` chunks of the lexical ranking over its docstore. -/
def BM25Retriever.retrieve (o : OracleA) (r : BM25Retriever)
    (q : String) : List TextNode :=
  (o.rankBM25 r.docstore q).take r.similarity_top_k

/-- Dispatch a query to either underlying retriever. -/
def BaseRetrieverA.retrieve (o : OracleA) (r : BaseRetrieverA)
    (q : String) : List TextNode :=
  match r with
  | BaseRetrieverA.vector vr => vr.retrieveA o q
  | BaseRetrieverA.bm25 br => br.retrieve o q

/-- Modelled from the spec: the queries the fusion retriever issues —
the original query plus `num_queries - 1` generated reformulations;
`num_queries = 1` disables reformulation. -/
def QueryFusionRetriever.getQueries (o : OracleA) (r : QueryFusionRetriever)
    (q : String) : List String :=
  if r.num_queries ≤ 1 then [q] else q :: o.genQueries q (r.num_queries - 1)

/-- Modelled from the spec: the fusion retriever issues every query
variant against every configured retriever, merges the result lists by
the configured fusion mode, and returns at most `similarity_top_k`
chunks. -/
def QueryFusionRetriever.retrieve (o : OracleA) (r : QueryFusionRetriever)
    (q : String) : List TextNode :=
  let queries := r.getQueries o q
  let results := queries.flatMap fun qq => r.retrievers.map fun ret => ret.retrieve o qq
  (o.fuse r.mode results).take r.similarity_top_k

/-- Pack A query engine: synthesize an answer over the fused chunks. -/
def RetrieverQueryEngineA.query (o : OracleA) (e : RetrieverQueryEngineA)
    (q : String) : String :=
  o.synthesize q (e.retriever.retrieve o q)

/-- `HybridFusionRetrieverPack.retrieve(query_str)`: delegates to the
fusion retriever.  The method assigns no attribute, so it returns the
pack unchanged alongside the result. -/
def HybridFusionRetrieverPack.retrieve (o : OracleA)
    (p : HybridFusionRetrieverPack) (q : String) :
    HybridFusionRetrieverPack × List TextNode :=
  (p, p.fusion_retriever.retrieve o q)

/-- `HybridFusionRetrieverPack.run(query)`: delegates to the query
engine.  The method assigns no attribute, so it returns the pack
unchanged alongside the result. -/
def HybridFusionRetrieverPack.run (o : OracleA)
    (p : HybridFusionRetrieverPack) (q : String) :
    HybridFusionRetrieverPack × String :=
  (p, p.query_engine.query o q)

/-! ### Helper lemmas -/

/-- Overwriting identifiers after enumeration depends only on the chunk
texts, not on the identifiers the splitter generated. -/
theorem enumFrom_overwrite (f : Nat → String) (ns : List TextNode) : ∀ k : Nat,
    (List.enumFrom k ns).map (fun p => { p.2 with id_ := f p.1 }) =
      (List.enumFrom k (ns.map TextNode.text)).map
        (fun p => ({ id_ := f p.1, text := p.2 } : TextNode)) := by
  induction ns with
  | nil => intro k; rfl
  | cons n ns ih => intro k; simp [List.enumFrom, ih (k + 1)]

/-- The chunk texts the splitter model produces from a document list. -/
theorem get_nodes_texts (m : SentenceSplitterModel) (c : Nat) (docs : List Document) :
    (m.get_nodes_from_documents c docs).map TextNode.text =
      docs.flatMap fun d => m.split c d.text := by
  simp only [SentenceSplitterModel.get_nodes_from_documents,
    SentenceSplitterModel.nodesOfText, List.map_flatMap, List.map_map]
  refine List.flatMap_congr fun d _ => ?_
  exact List.enum_map_snd (m.split c d.text)

/-- Normal form of the base-node list: the chunk texts of the 1024-split
in order, with identifiers `node-{idx}`. -/
theorem baseNodes_eq (m : SentenceSplitterModel) (docs : List Document) :
    baseNodes m docs =
      ((docs.flatMap fun d => m.split 1024 d.text).enum).map
        (fun p => ({ id_ := "node-" ++ toString p.1, text := p.2 } : TextNode)) := by
  have h1 := enumFrom_overwrite (fun i => "node-" ++ toString i)
    (m.get_nodes_from_documents 1024 docs) 0
  rw [get_nodes_texts] at h1
  exact h1

/-- Membership in the flat node list built by pack B's constructor. -/
theorem mem_allNodes_iff (m : SentenceSplitterModel) (docs : List Document)
    (n : IndexNode) :
    n ∈ allNodes m docs ↔
      ∃ b ∈ baseNodes m docs,
        (∃ c ∈ sub_chunk_sizes, ∃ sn ∈ m.nodesOfText c b.text,
            n = IndexNode.from_text_node sn b.node_id)
        ∨ n = IndexNode.from_text_node b b.node_id := by
  simp only [allNodes, List.mem_flatMap, List.mem_append, List.mem_map,
    List.mem_singleton]
  constructor
  · rintro ⟨b, hb, (⟨c, hc, sn, hsn, h⟩ | h)⟩
    · exact ⟨b, hb, Or.inl ⟨c, hc, sn, hsn, h.symm⟩⟩
    · exact ⟨b, hb, Or.inr h⟩
  · rintro ⟨b, hb, (⟨c, hc, sn, hsn, h⟩ | h)⟩
    · exact ⟨b, hb, Or.inl ⟨c, hc, sn, hsn, h.symm⟩⟩
    · exact ⟨b, hb, Or.inr h⟩

/-- The keys of the node dict are the node identifiers of the flat list. -/
theorem allNodesDict_keys (m : SentenceSplitterModel) (docs : List Document) :
    (allNodesDict m docs).map Prod.fst = (allNodes m docs).map IndexNode.node_id := by
  simp [allNodesDict, List.map_map]

/-! ### Concrete instances used by witnesses -/

/-- A concrete splitter model: every text is one single chunk, fresh ids
record chunk size and position. -/
def demoSplitter : SentenceSplitterModel where
  split := fun _ t => [t]
  mkId := fun c _ i => "sub-" ++ toString c ++ "-" ++ toString i

/-- The same chunking behaviour with different framework-generated
identifiers (a different run's randomness). -/
def demoSplitter2 : SentenceSplitterModel where
  split := fun _ t => [t]
  mkId := fun _ _ _ => "other-id"

/-- A concrete one-document input. -/
def demoDocs : List Document := [{ text := "alpha" }]

/-! ### Claims -/

/-- C1: every `IndexNode` placed in the flat index by
`RecursiveRetrieverSmallToBigPack.__init__` (every child sub-chunk and
every wrapped original parent node) has a parent reference `index_id`
that is a key present in the node mapping `node_dict` handed to the
recursive retriever. -/
theorem references_resolve_in_node_dict (m : SentenceSplitterModel)
    (docs : List Document) (n : IndexNode)
    (hn : n ∈ (RecursiveRetrieverSmallToBigPack.init m docs).vector_index_chunk.nodes) :
    n.index_id ∈
      ((RecursiveRetrieverSmallToBigPack.init m docs).recursive_retriever.node_dict).map
        Prod.fst := by
  have hn' : n ∈ allNodes m docs := hn
  show n.index_id ∈ (allNodesDict m docs).map Prod.fst
  rw [allNodesDict_keys]
  obtain ⟨b, hb, hcase⟩ := (mem_allNodes_iff m docs n).mp hn'
  have hidx : n.index_id = b.node_id := by
    rcases hcase with ⟨c, hc, sn, hsn, rfl⟩ | rfl <;> rfl
  rw [hidx]
  exact List.mem_map.mpr ⟨IndexNode.from_text_node b b.node_id,
    (mem_allNodes_iff m docs _).mpr ⟨b, hb, Or.inr rfl⟩, rfl⟩

/-- Witness for C1 at the concrete splitter and document list. -/
theorem references_resolve_in_node_dict_witness :
    ({ id_ := "node-0", text := "alpha", index_id := "node-0" } : IndexNode) ∈
        (RecursiveRetrieverSmallToBigPack.init demoSplitter demoDocs).vector_index_chunk.nodes
    ∧ ({ id_ := "node-0", text := "alpha", index_id := "node-0" } : IndexNode).index_id ∈
        ((RecursiveRetrieverSmallToBigPack.init demoSplitter
            demoDocs).recursive_retriever.node_dict).map Prod.fst :=
  ⟨by decide,
   references_resolve_in_node_dict demoSplitter demoDocs _ (by decide)⟩

/-- C2: the parent (base) chunks of pack B get identifiers `node-{idx}`
in document-traversal order, before any sub-splitting; and the base-node
list does not depend on the identifiers the splitter generated (the only
run-to-run varying part), so repeated construction from the same input
assigns the same identifiers to the same parent chunks. -/
theorem parent_ids_in_document_order :
    (∀ (m : SentenceSplitterModel) (docs : List Document),
      (baseNodes m docs).map TextNode.id_ =
        (List.range (docs.flatMap fun d => m.split 1024 d.text).length).map
          (fun i => "node-" ++ toString i))
    ∧ ∀ (m1 m2 : SentenceSplitterModel) (docs : List Document),
        m1.split = m2.split → baseNodes m1 docs = baseNodes m2 docs := by
  constructor
  · intro m docs
    rw [baseNodes_eq, List.map_map,
      ← List.enum_map_fst (docs.flatMap fun d => m.split 1024 d.text), List.map_map]
    rfl
  · intro m1 m2 docs h
    rw [baseNodes_eq, baseNodes_eq, h]

/-- Witness for C2: two splitter models agreeing on chunking but
generating different fresh identifiers yield the same base nodes. -/
theorem parent_ids_in_document_order_witness :
    demoSplitter.split = demoSplitter2.split
    ∧ baseNodes demoSplitter demoDocs = baseNodes demoSplitter2 demoDocs :=
  ⟨rfl, parent_ids_in_document_order.2 demoSplitter demoSplitter2 demoDocs rfl⟩

/-- C3: pack B's fixed construction policy — parent chunk size 1024,
sub-chunk granularities exactly [128, 256, 512], and the single flat
vector index holding, for each parent, the child chunks of all three
granularities plus the wrapped original parent, every such node carrying
the parent's identifier as its reference. -/
theorem fixed_construction_policy (m : SentenceSplitterModel) (docs : List Document) :
    (RecursiveRetrieverSmallToBigPack.init m docs).nodeParser.chunk_size = 1024
    ∧ sub_chunk_sizes = [128, 256, 512]
    ∧ (RecursiveRetrieverSmallToBigPack.init m docs).vector_index_chunk.nodes
        = allNodes m docs
    ∧ (∀ n : IndexNode,
        n ∈ (RecursiveRetrieverSmallToBigPack.init m docs).vector_index_chunk.nodes ↔
          ∃ b ∈ baseNodes m docs,
            (∃ c ∈ sub_chunk_sizes, ∃ sn ∈ m.nodesOfText c b.text,
                n = IndexNode.from_text_node sn b.node_id)
            ∨ n = IndexNode.from_text_node b b.node_id)
    ∧ ∀ n : IndexNode,
        n ∈ (RecursiveRetrieverSmallToBigPack.init m docs).vector_index_chunk.nodes →
          ∃ b ∈ baseNodes m docs, n.index_id = b.node_id := by
  refine ⟨rfl, rfl, rfl, fun n => mem_allNodes_iff m docs n, fun n hn => ?_⟩
  obtain ⟨b, hb, hcase⟩ := (mem_allNodes_iff m docs n).mp hn
  refine ⟨b, hb, ?_⟩
  rcases hcase with ⟨c, hc, sn, hsn, rfl⟩ | rfl <;> rfl

/-- Witness for C3 at the concrete splitter and document list. -/
theorem fixed_construction_policy_witness :
    ({ id_ := "sub-128-0", text := "alpha", index_id := "node-0" } : IndexNode) ∈
        (RecursiveRetrieverSmallToBigPack.init demoSplitter demoDocs).vector_index_chunk.nodes
    ∧ ∃ b ∈ baseNodes demoSplitter demoDocs,
        ({ id_ := "sub-128-0", text := "alpha", index_id := "node-0" } : IndexNode).index_id
          = b.node_id :=
  ⟨by decide,
   (fixed_construction_policy demoSplitter demoDocs).2.2.2.2 _ (by decide)⟩

/-- C4, counterexample: at a concrete input, pack B's `get_modules`
returns exactly five entries — query engine, recursive retriever, LLM,
embedding model, service context — and contains no vector-retriever or
lexical (BM25) retriever handle, contrary to the claim. -/
theorem get_modules_no_retriever_handles :
    ((RecursiveRetrieverSmallToBigPack.init demoSplitter demoDocs).get_modules).map Prod.fst
        = ["query_engine", "recursive_retriever", "llm", "embed_model", "service_context"]
    ∧ ((RecursiveRetrieverSmallToBigPack.init demoSplitter demoDocs).get_modules).length = 5
    ∧ "vector_retriever" ∉
        ((RecursiveRetrieverSmallToBigPack.init demoSplitter demoDocs).get_modules).map Prod.fst
    ∧ "bm25_retriever" ∉
        ((RecursiveRetrieverSmallToBigPack.init demoSplitter demoDocs).get_modules).map Prod.fst :=
  ⟨rfl, rfl, by decide, by decide⟩

/-- C4, amended: pack B's `get_modules` returns named handles to exactly
the query engine, the recursive retriever, the LLM client, the embedding
client, and the derived per-pack service context, in that order. -/
theorem get_modules_returns_five_handles (p : RecursiveRetrieverSmallToBigPack) :
    p.get_modules =
      [("query_engine", ModuleB.queryEngine p.query_engine),
       ("recursive_retriever", ModuleB.recursiveRetriever p.recursive_retriever),
       ("llm", ModuleB.llm p.llm),
       ("embed_model", ModuleB.embedModel p.embed_model),
       ("service_context", ModuleB.serviceContext p.service_context)] := rfl

/-- C5: pack A's `retrieve` returns at most `fusion_similarity_top_k`
chunks, and the fusion retriever is configured with that value as its
`similarity_top_k`. -/
theorem retrieve_at_most_fusion_top_k (o : OracleA) (nodes : List TextNode)
    (chunk_size : Nat) (mode : String)
    (vector_similarity_top_k bm25_similarity_top_k fusion_similarity_top_k
     num_queries : Nat) (q : String) :
    ((HybridFusionRetrieverPack.retrieve o
        (HybridFusionRetrieverPack.init nodes chunk_size mode
          vector_similarity_top_k bm25_similarity_top_k fusion_similarity_top_k
          num_queries) q).2).length ≤ fusion_similarity_top_k
    ∧ (HybridFusionRetrieverPack.init nodes chunk_size mode
        vector_similarity_top_k bm25_similarity_top_k fusion_similarity_top_k
        num_queries).fusion_retriever.similarity_top_k = fusion_similarity_top_k := by
  refine ⟨?_, rfl⟩
  simp only [HybridFusionRetrieverPack.retrieve, QueryFusionRetriever.retrieve]
  simp [List.length_take]
  exact Or.inl le_rfl

/-- C6: pack A's constructor builds one vector index and one BM25
retriever over that index's docstore, and wraps exactly the vector and
BM25 retrievers behind one fusion retriever configured with the given
mode, `num_queries` and `fusion_similarity_top_k`. -/
theorem hybrid_constructor_wiring (nodes : List TextNode) (chunk_size : Nat)
    (mode : String) (vector_similarity_top_k bm25_similarity_top_k
    fusion_similarity_top_k num_queries : Nat) :
    (HybridFusionRetrieverPack.init nodes chunk_size mode vector_similarity_top_k
        bm25_similarity_top_k fusion_similarity_top_k num_queries).vector_retriever.index
      = { nodes := nodes, service_context := { chunk_size := some chunk_size } }
    ∧ (HybridFusionRetrieverPack.init nodes chunk_size mode vector_similarity_top_k
        bm25_similarity_top_k fusion_similarity_top_k num_queries).bm25_retriever.docstore
      = (HybridFusionRetrieverPack.init nodes chunk_size mode vector_similarity_top_k
          bm25_similarity_top_k fusion_similarity_top_k
          num_queries).vector_retriever.index.docstore
    ∧ (HybridFusionRetrieverPack.init nodes chunk_size mode vector_similarity_top_k
        bm25_similarity_top_k fusion_similarity_top_k num_queries).vector_retriever.similarity_top_k
      = vector_similarity_top_k
    ∧ (HybridFusionRetrieverPack.init nodes chunk_size mode vector_similarity_top_k
        bm25_similarity_top_k fusion_similarity_top_k num_queries).bm25_retriever.similarity_top_k
      = bm25_similarity_top_k
    ∧ (HybridFusionRetrieverPack.init nodes chunk_size mode vector_similarity_top_k
        bm25_similarity_top_k fusion_similarity_top_k num_queries).fusion_retriever.retrievers
      = [BaseRetrieverA.vector
          (HybridFusionRetrieverPack.init nodes chunk_size mode vector_similarity_top_k
            bm25_similarity_top_k fusion_similarity_top_k num_queries).vector_retriever,
         BaseRetrieverA.bm25
          (HybridFusionRetrieverPack.init nodes chunk_size mode vector_similarity_top_k
            bm25_similarity_top_k fusion_similarity_top_k num_queries).bm25_retriever]
    ∧ (HybridFusionRetrieverPack.init nodes chunk_size mode vector_similarity_top_k
        bm25_similarity_top_k fusion_similarity_top_k num_queries).fusion_retriever.mode = mode
    ∧ (HybridFusionRetrieverPack.init nodes chunk_size mode vector_similarity_top_k
        bm25_similarity_top_k fusion_similarity_top_k num_queries).fusion_retriever.num_queries
      = num_queries
    ∧ (HybridFusionRetrieverPack.init nodes chunk_size mode vector_similarity_top_k
        bm25_similarity_top_k fusion_similarity_top_k num_queries).fusion_retriever.similarity_top_k
      = fusion_similarity_top_k :=
  ⟨rfl, rfl, rfl, rfl, rfl, rfl, rfl, rfl⟩

/-- C7: pack A's `get_modules` returns the pack unchanged (no side
effects) together with exactly the four entries `vector_retriever`,
`bm25_retriever`, `fusion_retriever`, `query_engine`, each bound to the
corresponding component. -/
theorem get_modules_exact_and_pure (p : HybridFusionRetrieverPack) :
    (p.get_modules).1 = p
    ∧ (p.get_modules).2 =
        [("vector_retriever", ModuleA.vectorRetriever p.vector_retriever),
         ("bm25_retriever", ModuleA.bm25Retriever p.bm25_retriever),
         ("fusion_retriever", ModuleA.fusionRetriever p.fusion_retriever),
         ("query_engine", ModuleA.queryEngine p.query_engine)]
    ∧ ((p.get_modules).2).map Prod.fst =
        ["vector_retriever", "bm25_retriever", "fusion_retriever", "query_engine"] :=
  ⟨rfl, rfl, rfl⟩

/-- C8: for both packs, `retrieve` and `run` leave the pack's own state
unchanged, and successive calls are independent: a call made after
another returns what it would have returned on the freshly constructed
pack. -/
theorem calls_leave_state_unchanged :
    (∀ (o : OracleA) (p : HybridFusionRetrieverPack) (q1 q2 : String),
      (p.retrieve o q1).1 = p
      ∧ (p.run o q1).1 = p
      ∧ (((p.retrieve o q1).1).retrieve o q2).2 = (p.retrieve o q2).2
      ∧ (((p.run o q1).1).run o q2).2 = (p.run o q2).2)
    ∧ ∀ (o : OracleB) (p : RecursiveRetrieverSmallToBigPack) (q1 q2 : String),
      (p.run o q1).1 = p
      ∧ (((p.run o q1).1).run o q2).2 = (p.run o q2).2 :=
  ⟨fun _ _ _ _ => ⟨rfl, rfl, rfl, rfl⟩, fun _ _ _ _ => ⟨rfl, rfl⟩⟩

/-- A concrete node list for pack A witnesses. -/
def demoNodes : List TextNode := [{ id_ := "n0", text := "alpha" }]

/-- A concrete retrieval oracle for pack A. -/
def demoOracleA : OracleA where
  rankVector := fun i _ => i.nodes
  rankBM25 := fun ds _ => ds
  genQueries := fun q _ => [q ++ "-alt"]
  fuse := fun _ ls => ls.headD []
  synthesize := fun q _ => q

/-- The same ranking and fusion behaviour with a different query
reformulation generator. -/
def demoOracleA2 : OracleA where
  rankVector := fun i _ => i.nodes
  rankBM25 := fun ds _ => ds
  genQueries := fun _ _ => []
  fuse := fun _ ls => ls.headD []
  synthesize := fun q _ => q

/-- C9: with `num_queries = 1` the fusion retriever issues only the
original query (no reformulation), so the result of `retrieve` does not
depend on the query-reformulation generator at all: two runs whose
ranking and fusion services agree return the same ranked list, whatever
each run's generator would have produced. -/
theorem num_queries_one_single_pass (o1 o2 : OracleA) (nodes : List TextNode)
    (chunk_size : Nat) (mode : String)
    (vector_similarity_top_k bm25_similarity_top_k fusion_similarity_top_k : Nat)
    (q : String)
    (hv : o1.rankVector = o2.rankVector) (hb : o1.rankBM25 = o2.rankBM25)
    (hf : o1.fuse = o2.fuse) :
    (HybridFusionRetrieverPack.init nodes chunk_size mode vector_similarity_top_k
        bm25_similarity_top_k fusion_similarity_top_k 1).fusion_retriever.getQueries o1 q
      = [q]
    ∧ (HybridFusionRetrieverPack.retrieve o1
        (HybridFusionRetrieverPack.init nodes chunk_size mode vector_similarity_top_k
          bm25_similarity_top_k fusion_similarity_top_k 1) q).2
      = (HybridFusionRetrieverPack.retrieve o2
          (HybridFusionRetrieverPack.init nodes chunk_size mode vector_similarity_top_k
            bm25_similarity_top_k fusion_similarity_top_k 1) q).2 := by
  constructor
  · rfl
  · have hnq : (HybridFusionRetrieverPack.init nodes chunk_size mode
        vector_similarity_top_k bm25_similarity_top_k fusion_similarity_top_k
        1).fusion_retriever.num_queries = 1 := rfl
    simp only [HybridFusionRetrieverPack.retrieve, QueryFusionRetriever.retrieve,
      QueryFusionRetriever.getQueries, BaseRetrieverA.retrieve,
      VectorIndexRetriever.retrieveA, BM25Retriever.retrieve, hnq, hv, hb, hf]
    simp

/-- Witness for C9: two oracles agreeing on ranking and fusion but with
different reformulation generators give the same result at `num_queries
= 1`. -/
theorem num_queries_one_single_pass_witness :
    demoOracleA.rankVector = demoOracleA2.rankVector
    ∧ demoOracleA.rankBM25 = demoOracleA2.rankBM25
    ∧ demoOracleA.fuse = demoOracleA2.fuse
    ∧ ((HybridFusionRetrieverPack.init demoNodes 256 "reciprocal_rerank" 2 2 2
          1).fusion_retriever.getQueries demoOracleA "query" = ["query"]
       ∧ (HybridFusionRetrieverPack.retrieve demoOracleA
            (HybridFusionRetrieverPack.init demoNodes 256 "reciprocal_rerank" 2 2 2 1)
            "query").2
          = (HybridFusionRetrieverPack.retrieve demoOracleA2
              (HybridFusionRetrieverPack.init demoNodes 256 "reciprocal_rerank" 2 2 2 1)
              "query").2) :=
  ⟨rfl, rfl, rfl,
   num_queries_one_single_pass demoOracleA demoOracleA2 demoNodes 256
     "reciprocal_rerank" 2 2 2 "query" rfl rfl rfl⟩

/-- C10: the vector retriever backing pack B's recursive retriever is
always constructed with `similarity_top_k = 2` (the constructor offers
no way to override it), so at most 2 child-chunk hits are retrieved and
resolved per query. -/
theorem recursive_vector_top_k_fixed (m : SentenceSplitterModel)
    (docs : List Document) :
    ∃ r : VectorIndexRetriever IndexNode,
      (RecursiveRetrieverSmallToBigPack.init m docs).recursive_retriever.retriever_dict
        = [("vector", r)]
      ∧ r.similarity_top_k = 2
      ∧ (∀ (o : OracleB) (q : String), (r.retrieveB o q).length ≤ 2)
      ∧ ∀ (o : OracleB) (q : String),
          ((RecursiveRetrieverSmallToBigPack.init m docs).recursive_retriever.retrieve
              o q).length ≤ 2 := by
  refine ⟨((RecursiveRetrieverSmallToBigPack.init m docs).vector_index_chunk).as_retriever 2,
    rfl, rfl, fun o q => ?_, fun o q => ?_⟩
  · simp [VectorIndexRetriever.retrieveB, List.length_take]
    exact Or.inl le_rfl
  · have hlook : pyDictLookup
        (RecursiveRetrieverSmallToBigPack.init m docs).recursive_retriever.retriever_dict
        (RecursiveRetrieverSmallToBigPack.init m docs).recursive_retriever.root_id
        = some (((RecursiveRetrieverSmallToBigPack.init m
            docs).vector_index_chunk).as_retriever 2) := rfl
    simp only [RecursiveRetriever.retrieve, hlook]
    simp [VectorIndexRetriever.retrieveB, List.length_take]
    exact Or.inl le_rfl
